import Mathlib

/-!
Verification of the declaration surface of `src/pitivi-projectsourcelist.h`
(PiTiVi's project source list object).  The header contains only
declarations: GObject-style type macros, the instance/class struct layouts,
and six function prototypes.  We embed that surface as explicit Lean data
(types, prototypes, struct field lists, the preprocessor defines and the
include guard), and model the behaviour the specification describes for the
operations whose bodies are not part of the supplied sources.
-/

/-- The C types appearing in the header's declarations.  `incomplete`
stands for a struct type that is declared (via typedef) but whose member
list is never given in this header. -/
inductive CType where
  | void
  | gboolean
  | guint
  | gchar
  | gtype
  | gobject
  | gobjectClass
  | named (s : String)
  | incomplete (s : String)
  | ptr (t : CType)
deriving DecidableEq, Repr

/-- A C function prototype: name, return type, parameter types in order. -/
structure FunDecl where
  name : String
  ret : CType
  params : List CType
deriving DecidableEq, Repr

/-- An argument inside a preprocessor define's body: a reference to one of
the define's parameters, a literal type name, or a use of another define. -/
inductive CArg where
  | param (s : String)
  | typeName (s : String)
  | macRef (s : String)
deriving DecidableEq, Repr

/-- A preprocessor define from the header: its name, its parameter list and
its body, which in this header is always a single call `headFun(args...)`. -/
structure CDefine where
  name : String
  params : List String
  headFun : String
  args : List CArg
deriving DecidableEq, Repr

/-- A declaration emitted by the header body. -/
inductive CDecl where
  | defineDecl (d : CDefine)
  | typedefDecl (structName aliasName : String)
  | structDef (name : String) (fields : List (String × CType))
  | funDecl (f : FunDecl)
deriving DecidableEq, Repr

/-- Pointer to the instance struct: the source list handle type
`PitiviProjectSourceList *`. -/
def handleTy : CType := CType.ptr (CType.named "PitiviProjectSourceList")

/-- The C string type `gchar *`. -/
def stringTy : CType := CType.ptr CType.gchar

/-- Header line 37: `PITIVI_PROJECTSOURCELIST_TYPE` expands to a call of
`pitivi_projectsourcelist_get_type`. -/
def typeRegistrationDef : CDefine :=
  ⟨"PITIVI_PROJECTSOURCELIST_TYPE", [], "pitivi_projectsourcelist_get_type", []⟩

/-- Header line 38: the instance cast `PITIVI_PROJECTSOURCELIST(obj)`. -/
def instanceCastDef : CDefine :=
  ⟨"PITIVI_PROJECTSOURCELIST", ["obj"], "G_TYPE_CHECK_INSTANCE_CAST",
   [CArg.param "obj", CArg.macRef "PITIVI_PROJECTSOURCELIST_TYPE",
    CArg.typeName "PitiviProjectSourceList"]⟩

/-- Header line 39: the class cast `PITIVI_PROJECTSOURCELIST_CLASS(klass)`. -/
def classCastDef : CDefine :=
  ⟨"PITIVI_PROJECTSOURCELIST_CLASS", ["klass"], "G_TYPE_CHECK_CLASS_CAST",
   [CArg.param "klass", CArg.macRef "PITIVI_PROJECTSOURCELIST_TYPE",
    CArg.typeName "PitiviProjectSourceListClass"]⟩

/-- Header line 40: the instance type check `PITIVI_IS_PROJECTSOURCELIST(obj)`. -/
def instanceCheckDef : CDefine :=
  ⟨"PITIVI_IS_PROJECTSOURCELIST", ["obj"], "G_TYPE_CHECK_TYPE",
   [CArg.param "obj", CArg.macRef "PITIVI_PROJECTSOURCELIST_TYPE"]⟩

/-- Header line 41: the class type check `PITIVI_IS_PROJECTSOURCELIST_CLASS(klass)`. -/
def classCheckDef : CDefine :=
  ⟨"PITIVI_IS_PROJECTSOURCELIST_CLASS", ["klass"], "G_TYPE_CHECK_CLASS_TYPE",
   [CArg.param "klass", CArg.macRef "PITIVI_PROJECTSOURCELIST_TYPE"]⟩

/-- Header line 42: `PITIVI_PROJECTSOURCELIST_GET_CLASS(obj)`. -/
def getClassDef : CDefine :=
  ⟨"PITIVI_PROJECTSOURCELIST_GET_CLASS", ["obj"], "G_TYPE_INSTANCE_GET_CLASS",
   [CArg.param "obj", CArg.macRef "PITIVI_PROJECTSOURCELIST_TYPE",
    CArg.typeName "PitiviProjectSourceListClass"]⟩

/-- The six preprocessor defines of header lines 37-42, in order. -/
def typeDefines : List CDefine :=
  [typeRegistrationDef, instanceCastDef, classCastDef,
   instanceCheckDef, classCheckDef, getClassDef]

/-- Header lines 50-58: the fields of `struct _PitiviProjectSourceList`,
in declaration order: the embedded `GObject parent` first, then the single
private pointer to the incomplete type `PitiviProjectSourceListPrivate`. -/
def pitiviProjectSourceListFields : List (String × CType) :=
  [("parent", CType.gobject),
   ("private", CType.ptr (CType.incomplete "PitiviProjectSourceListPrivate"))]

/-- Header lines 60-65: the fields of `struct _PitiviProjectSourceListClass`:
only the embedded `GObjectClass parent`. -/
def pitiviProjectSourceListClassFields : List (String × CType) :=
  [("parent", CType.gobjectClass)]

/-- Header line 68: `GType pitivi_projectsourcelist_get_type (void);`. -/
def pitivi_projectsourcelist_get_type_decl : FunDecl :=
  ⟨"pitivi_projectsourcelist_get_type", CType.gtype, []⟩

/-- Header line 74: `PitiviProjectSourceList *pitivi_projectsourcelist_new(void);`. -/
def pitivi_projectsourcelist_new_decl : FunDecl :=
  ⟨"pitivi_projectsourcelist_new", handleTy, []⟩

/-- Header line 75: `gboolean pitivi_projectsourcelist_add_file_to_bin(
PitiviProjectSourceList *self, guint bin_pos, gchar *source);`. -/
def pitivi_projectsourcelist_add_file_to_bin_decl : FunDecl :=
  ⟨"pitivi_projectsourcelist_add_file_to_bin", CType.gboolean,
   [handleTy, CType.guint, stringTy]⟩

/-- Header line 76: `void pitivi_projectsourcelist_new_bin(
PitiviProjectSourceList *self, gchar *bin_name);`. -/
def pitivi_projectsourcelist_new_bin_decl : FunDecl :=
  ⟨"pitivi_projectsourcelist_new_bin", CType.void, [handleTy, stringTy]⟩

/-- Header line 77: `gchar *pitivi_projectsourcelist_get_file_info(
PitiviProjectSourceList *self, guint bin_pos, guint next_file);`. -/
def pitivi_projectsourcelist_get_file_info_decl : FunDecl :=
  ⟨"pitivi_projectsourcelist_get_file_info", stringTy,
   [handleTy, CType.guint, CType.guint]⟩

/-- Header lines 79-80: `void pitivi_projectsourcelist_showfile(
PitiviProjectSourceList *self, guint bin_pos);`. -/
def pitivi_projectsourcelist_showfile_decl : FunDecl :=
  ⟨"pitivi_projectsourcelist_showfile", CType.void, [handleTy, CType.guint]⟩

/-- The five method prototypes of the `Method definitions` section
(header lines 74-80), in declaration order. -/
def methodDecls : List FunDecl :=
  [pitivi_projectsourcelist_new_decl,
   pitivi_projectsourcelist_add_file_to_bin_decl,
   pitivi_projectsourcelist_new_bin_decl,
   pitivi_projectsourcelist_get_file_info_decl,
   pitivi_projectsourcelist_showfile_decl]

/-- Everything the header body (between the include-guard lines 26-27 and
the `#endif` of line 81) declares, in source order: the six defines, the
four typedefs of lines 44-47, the two struct definitions, and the six
function prototypes. -/
def headerBody : List CDecl :=
  [CDecl.defineDecl typeRegistrationDef,
   CDecl.defineDecl instanceCastDef,
   CDecl.defineDecl classCastDef,
   CDecl.defineDecl instanceCheckDef,
   CDecl.defineDecl classCheckDef,
   CDecl.defineDecl getClassDef,
   CDecl.typedefDecl "_PitiviProjectSourceList" "PitiviProjectSourceList",
   CDecl.typedefDecl "_PitiviProjectSourceListClass" "PitiviProjectSourceListClass",
   CDecl.typedefDecl "_PitiviProjectSourceListPrivate" "PitiviProjectSourceListPrivate",
   CDecl.typedefDecl "_PitiviSourceBin" "PitiviSourceBin",
   CDecl.structDef "_PitiviProjectSourceList" pitiviProjectSourceListFields,
   CDecl.structDef "_PitiviProjectSourceListClass" pitiviProjectSourceListClassFields,
   CDecl.funDecl pitivi_projectsourcelist_get_type_decl,
   CDecl.funDecl pitivi_projectsourcelist_new_decl,
   CDecl.funDecl pitivi_projectsourcelist_add_file_to_bin_decl,
   CDecl.funDecl pitivi_projectsourcelist_new_bin_decl,
   CDecl.funDecl pitivi_projectsourcelist_get_file_info_decl,
   CDecl.funDecl pitivi_projectsourcelist_showfile_decl]

/-- The function prototypes declared by the header body, in order. -/
def headerFunDecls : List FunDecl :=
  headerBody.filterMap fun d =>
    match d with
    | CDecl.funDecl f => some f
    | _ => none

/-- Whether a declaration gives a member list for the struct named `n`. -/
def definesStruct (d : CDecl) (n : String) : Bool :=
  match d with
  | CDecl.structDef m _ => m == n
  | _ => false

/-- The include-guard identifier of lines 26-27 and 81. -/
def headerGuard : String := "PITIVI_PROJECTSOURCELIST_H"

/-- Processing one `#include` of the header in a translation unit whose set
of defined preprocessor names is `defs`: the `#ifndef`/`#define` guard of
lines 26-27 emits nothing when the guard is already defined, and otherwise
defines the guard and emits the header body. -/
def includeHeader (defs : List String) : List CDecl × List String :=
  if headerGuard ∈ defs then ([], defs)
  else (headerBody, headerGuard :: defs)

/-- Processing `n` successive `#include`s of the header, accumulating the
emitted declarations and threading the defined-name set. -/
def includeHeaderN : Nat → List String → List CDecl × List String
  | 0, defs => ([], defs)
  | Nat.succ n, defs =>
      let p := includeHeader defs
      let q := includeHeaderN n p.2
      (p.1 ++ q.1, q.2)

/-- Modelled from the spec: a bin is a named grouping of imported media
sources; a source is a filesystem path registered into the bin.  The
implementation of `struct _PitiviSourceBin` is not part of the supplied
sources. -/
structure PitiviSourceBin where
  name : String
  sources : List String
deriving DecidableEq, Repr

/-- Modelled from the spec: the source list is an opaque container owning
zero or more bins; the implementation behind the private pointer is not
part of the supplied sources. -/
structure PitiviProjectSourceList where
  bins : List PitiviSourceBin
deriving DecidableEq, Repr

/-- Modelled from the spec: `pitivi_projectsourcelist_new` constructs a
new, empty source list (its body is not part of the supplied sources). -/
def pitivi_projectsourcelist_new : PitiviProjectSourceList := ⟨[]⟩

/-- Modelled from the spec: `pitivi_projectsourcelist_new_bin` creates a
new named bin in the source list (its body is not part of the supplied
sources); the new bin starts with no sources. -/
def pitivi_projectsourcelist_new_bin (s : PitiviProjectSourceList)
    (bin_name : String) : PitiviProjectSourceList :=
  ⟨s.bins ++ [⟨bin_name, []⟩]⟩

/-- A bin with the given source list appended by one more path. -/
def addToBin (b : PitiviSourceBin) (source : String) : PitiviSourceBin :=
  ⟨b.name, b.sources ++ [source]⟩

/-- Modelled from the spec: `pitivi_projectsourcelist_add_file_to_bin`
adds a file (by path) to the bin at the given position and reports
success or failure (its body is not part of the supplied sources; the
spec leaves the failure causes unspecified, so the model fails exactly
when the bin position is out of range). -/
def pitivi_projectsourcelist_add_file_to_bin (s : PitiviProjectSourceList)
    (bin_pos : Nat) (source : String) : Bool × PitiviProjectSourceList :=
  if bin_pos < s.bins.length then
    (true, ⟨s.bins.set bin_pos (addToBin (s.bins.getD bin_pos ⟨"", []⟩) source)⟩)
  else (false, s)

/-- Modelled from the spec: the textual info describing a source file; the
spec leaves the format of the (unshown) metadata unspecified. -/
def fileInfoString (path : String) : String := "source file " ++ path

/-- Modelled from the spec: `pitivi_projectsourcelist_get_file_info`
retrieves textual info describing the Nth file in a given bin (its body is
not part of the supplied sources). -/
def pitivi_projectsourcelist_get_file_info (s : PitiviProjectSourceList)
    (bin_pos next_file : Nat) : String :=
  fileInfoString (((s.bins.getD bin_pos ⟨"", []⟩).sources).getD next_file "")

/-- Modelled from the spec: `pitivi_projectsourcelist_showfile` prints
debug information for a bin's contents and nothing more (its body is not
part of the supplied sources); it returns the printed lines together with
the unchanged source list. -/
def pitivi_projectsourcelist_showfile (s : PitiviProjectSourceList)
    (bin_pos : Nat) : List String × PitiviProjectSourceList :=
  ((s.bins.getD bin_pos ⟨"", []⟩).sources, s)

/-- Once the guard is among the defined names, any further number of
includes of the header emits nothing and leaves the defined names as they
are. -/
theorem includeHeaderN_absorbed : ∀ (n : Nat) (defs : List String),
    headerGuard ∈ defs → includeHeaderN n defs = ([], defs)
  | 0, _, _ => rfl
  | Nat.succ n, defs, h => by
      simp [includeHeaderN, includeHeader, h, includeHeaderN_absorbed n defs h]

/-- Claim C1: among the five declared operations on a project source list,
`pitivi_projectsourcelist_add_file_to_bin` is the only one whose return
type signals success or failure: it takes the source list handle, an
unsigned bin position and a file path string and returns a boolean, while
every other operation returns a handle, a string, or nothing. -/
theorem add_file_to_bin_sole_boolean :
    pitivi_projectsourcelist_add_file_to_bin_decl.ret = CType.gboolean ∧
    pitivi_projectsourcelist_add_file_to_bin_decl.params =
      [handleTy, CType.guint, stringTy] ∧
    (∀ f ∈ methodDecls, f.ret = CType.gboolean →
      f = pitivi_projectsourcelist_add_file_to_bin_decl) ∧
    (∀ f ∈ methodDecls, f ≠ pitivi_projectsourcelist_add_file_to_bin_decl →
      f.ret = handleTy ∨ f.ret = stringTy ∨ f.ret = CType.void) := by
  decide

/-- Witness for C1 at the concrete prototype of `showfile`: it differs from
`add_file_to_bin` and indeed returns nothing. -/
theorem add_file_to_bin_sole_boolean_witness :
    pitivi_projectsourcelist_showfile_decl.ret = handleTy ∨
    pitivi_projectsourcelist_showfile_decl.ret = stringTy ∨
    pitivi_projectsourcelist_showfile_decl.ret = CType.void :=
  add_file_to_bin_sole_boolean.2.2.2 pitivi_projectsourcelist_showfile_decl
    (by decide) (by decide)

/-- Claim C2, counterexample: the header's visible interface does not
consist of exactly five function prototypes: it declares six, the sixth
being `pitivi_projectsourcelist_get_type`, which is not among the five
method prototypes. -/
theorem header_has_sixth_prototype :
    headerFunDecls.length ≠ 5 ∧
    headerFunDecls.length = 6 ∧
    pitivi_projectsourcelist_get_type_decl ∈ headerFunDecls ∧
    pitivi_projectsourcelist_get_type_decl ∉ methodDecls := by
  decide

/-- Claim C2, amended: the header's visible interface consists of exactly
six function prototypes: the type-registration function
`pitivi_projectsourcelist_get_type` followed by the five operations
(create, add a file to a bin, create a named bin, query file info,
debug-print), and the method-definitions section holds exactly those
five. -/
theorem header_prototypes_enumerated :
    headerFunDecls = pitivi_projectsourcelist_get_type_decl :: methodDecls ∧
    methodDecls =
      [pitivi_projectsourcelist_new_decl,
       pitivi_projectsourcelist_add_file_to_bin_decl,
       pitivi_projectsourcelist_new_bin_decl,
       pitivi_projectsourcelist_get_file_info_decl,
       pitivi_projectsourcelist_showfile_decl] ∧
    headerFunDecls.length = 6 := by
  decide

/-- Claim C3: `pitivi_projectsourcelist_new` takes no arguments, returns a
source list handle, and the constructed source list is empty: it contains
zero bins. -/
theorem new_constructs_empty_list :
    pitivi_projectsourcelist_new_decl.params = [] ∧
    pitivi_projectsourcelist_new_decl.ret = handleTy ∧
    pitivi_projectsourcelist_new.bins = [] :=
  ⟨rfl, rfl, rfl⟩

/-- Claim C4: `pitivi_projectsourcelist_get_file_info` takes the handle and
two unsigned indices and returns a string (`gchar *`), not a boolean: a
query with no success/failure channel in its return type; for any source
list whose bin position and file index are in range it returns the textual
info describing the file at that index in that bin. -/
theorem get_file_info_describes_nth_file :
    pitivi_projectsourcelist_get_file_info_decl.ret = stringTy ∧
    pitivi_projectsourcelist_get_file_info_decl.ret ≠ CType.gboolean ∧
    pitivi_projectsourcelist_get_file_info_decl.params =
      [handleTy, CType.guint, CType.guint] ∧
    ∀ (s : PitiviProjectSourceList) (bin_pos next_file : Nat)
      (hb : bin_pos < s.bins.length)
      (hf : next_file < (s.bins.get ⟨bin_pos, hb⟩).sources.length),
      pitivi_projectsourcelist_get_file_info s bin_pos next_file =
        fileInfoString ((s.bins.get ⟨bin_pos, hb⟩).sources.get ⟨next_file, hf⟩) := by
  refine ⟨rfl, by decide, rfl, ?_⟩
  intro s bin_pos next_file hb hf
  simp only [List.get_eq_getElem] at hf
  simp [pitivi_projectsourcelist_get_file_info, List.getD_eq_getElem,
    List.getElem?_eq_getElem, List.get_eq_getElem, hb, hf]

/-- Witness for C4 at a concrete one-bin, one-file source list. -/
theorem get_file_info_describes_nth_file_witness :
    pitivi_projectsourcelist_get_file_info ⟨[⟨"clips", ["a.mov"]⟩]⟩ 0 0 =
      fileInfoString "a.mov" :=
  get_file_info_describes_nth_file.2.2.2 ⟨[⟨"clips", ["a.mov"]⟩]⟩ 0 0
    (by decide) (by decide)

/-- Claim C5: `pitivi_projectsourcelist_new_bin` takes the handle and a
name string and returns void, so it has no channel to report failure; it
creates a new bin of that name in the source list. -/
theorem new_bin_void_creates_named_bin :
    pitivi_projectsourcelist_new_bin_decl.ret = CType.void ∧
    pitivi_projectsourcelist_new_bin_decl.params = [handleTy, stringTy] ∧
    ∀ (s : PitiviProjectSourceList) (bin_name : String),
      (pitivi_projectsourcelist_new_bin s bin_name).bins =
        s.bins ++ [⟨bin_name, []⟩] :=
  ⟨rfl, rfl, fun _ _ => rfl⟩

/-- Witness for C5 at a concrete empty source list and bin name. -/
theorem new_bin_void_creates_named_bin_witness :
    (pitivi_projectsourcelist_new_bin ⟨[]⟩ "clips").bins = [⟨"clips", []⟩] :=
  new_bin_void_creates_named_bin.2.2 ⟨[]⟩ "clips"

/-- Claim C6: `pitivi_projectsourcelist_showfile` is debug only: it takes
the handle and a bin position, returns nothing, only prints debug
information about the bin's contents, and leaves the source list
unchanged. -/
theorem showfile_debug_only :
    pitivi_projectsourcelist_showfile_decl.ret = CType.void ∧
    pitivi_projectsourcelist_showfile_decl.params = [handleTy, CType.guint] ∧
    ∀ (s : PitiviProjectSourceList) (bin_pos : Nat),
      (pitivi_projectsourcelist_showfile s bin_pos).2 = s :=
  ⟨rfl, rfl, fun _ _ => rfl⟩

/-- Witness for C6 at a concrete one-bin source list. -/
theorem showfile_debug_only_witness :
    (pitivi_projectsourcelist_showfile ⟨[⟨"clips", ["a.mov"]⟩]⟩ 0).2 =
      ⟨[⟨"clips", ["a.mov"]⟩]⟩ :=
  showfile_debug_only.2.2 ⟨[⟨"clips", ["a.mov"]⟩]⟩ 0

/-- Claim C7: the instance struct embeds its `GObject` parent as its first
member and keeps its whole remaining state behind a single pointer to the
incomplete type `PitiviProjectSourceListPrivate`, whose member list the
header never gives; the class struct embeds `GObjectClass` first. -/
theorem struct_layout_gobject_embedding :
    pitiviProjectSourceListFields.head? = some ("parent", CType.gobject) ∧
    pitiviProjectSourceListFields.tail =
      [("private", CType.ptr (CType.incomplete "PitiviProjectSourceListPrivate"))] ∧
    pitiviProjectSourceListClassFields.head? =
      some ("parent", CType.gobjectClass) ∧
    (∀ d ∈ headerBody, definesStruct d "_PitiviProjectSourceListPrivate" = false) := by
  decide

/-- Witness for C7 at the concrete instance-struct declaration of the
header body. -/
theorem struct_layout_gobject_embedding_witness :
    definesStruct (CDecl.structDef "_PitiviProjectSourceList"
      pitiviProjectSourceListFields) "_PitiviProjectSourceListPrivate" = false :=
  struct_layout_gobject_embedding.2.2.2
    (CDecl.structDef "_PitiviProjectSourceList" pitiviProjectSourceListFields)
    (by decide)

/-- Claim C8: the header also declares `pitivi_projectsourcelist_get_type`,
a sixth function beyond the five operations: it takes no arguments,
returns a `GType`, is the body of the `PITIVI_PROJECTSOURCELIST_TYPE`
define, and every other type macro of the header uses
`PITIVI_PROJECTSOURCELIST_TYPE` among its arguments. -/
theorem get_type_anchors_type_macros :
    pitivi_projectsourcelist_get_type_decl ∈ headerFunDecls ∧
    pitivi_projectsourcelist_get_type_decl ∉ methodDecls ∧
    pitivi_projectsourcelist_get_type_decl.params = [] ∧
    pitivi_projectsourcelist_get_type_decl.ret = CType.gtype ∧
    typeRegistrationDef.headFun = pitivi_projectsourcelist_get_type_decl.name ∧
    (∀ d ∈ typeDefines, d.name ≠ "PITIVI_PROJECTSOURCELIST_TYPE" →
      CArg.macRef "PITIVI_PROJECTSOURCELIST_TYPE" ∈ d.args) := by
  decide

/-- Witness for C8 at the concrete instance-cast define. -/
theorem get_type_anchors_type_macros_witness :
    CArg.macRef "PITIVI_PROJECTSOURCELIST_TYPE" ∈ instanceCastDef.args :=
  get_type_anchors_type_macros.2.2.2.2.2 instanceCastDef (by decide) (by decide)

/-- Claim C9: thanks to the include guard `PITIVI_PROJECTSOURCELIST_H`,
including the header any positive number of times in one translation unit
emits exactly the declarations one inclusion emits. -/
theorem include_guard_idempotent (n : Nat) (defs : List String) :
    (includeHeaderN (n + 1) defs).1 = (includeHeaderN 1 defs).1 := by
  by_cases h : headerGuard ∈ defs
  · simp [includeHeaderN, includeHeader, h,
      includeHeaderN_absorbed n defs h]
  · simp [includeHeaderN, includeHeader, h,
      includeHeaderN_absorbed n (headerGuard :: defs) (by simp)]

/-- Witness for C9: four inclusions starting from no defined names emit
exactly what one inclusion emits. -/
theorem include_guard_idempotent_witness :
    (includeHeaderN 4 []).1 = (includeHeaderN 1 []).1 :=
  include_guard_idempotent 3 []

/-- Claim C10: every function prototype of the header other than the
constructor `pitivi_projectsourcelist_new` and the type-registration
function `pitivi_projectsourcelist_get_type` takes the
`PitiviProjectSourceList` handle as its first parameter. -/
theorem methods_take_handle_first :
    ∀ f ∈ headerFunDecls,
      f.name ≠ "pitivi_projectsourcelist_new" →
      f.name ≠ "pitivi_projectsourcelist_get_type" →
      f.params.head? = some handleTy := by
  decide

/-- Witness for C10 at the concrete prototype of `new_bin`. -/
theorem methods_take_handle_first_witness :
    pitivi_projectsourcelist_new_bin_decl.params.head? = some handleTy :=
  methods_take_handle_first pitivi_projectsourcelist_new_bin_decl
    (by decide) (by decide) (by decide)
